import Mathlib
/-!
# Verification of the vulnerability-advisory scraping pipeline

A shallow embedding of the per-vendor extractors (`*_scraper.py`), the
enrichment client (`utils.py`), and the query bots (`*_queries.py`) of the
repository, together with theorems settling the frozen claims about them.

Conventions of the embedding:
* pandas `DataFrame`s are lists of rows; a row is an association list of
  column name to cell.
* pandas `drop_duplicates(keep="first")` is modelled as a
  first-occurrence-keeping scan.  pandas `sort_values` (default
  `kind='quicksort'`, which is NOT stable) is modelled nondeterministically
  where its tie order is observable — `admissibleSort` constrains only the
  key order of the output — and by a stable insertion sort where an
  executable refinement is needed or no asserted property depends on the
  tie order.
* Python exceptions are modelled with `Except`/`Option`; a scraper's
  top-level `try/except` becomes a total Lean function, so "never raises"
  holds by construction for the modelled failure modes.
* Python `float()` and `pd.to_datetime(errors="coerce")` are modelled on the
  value domains the pages produce: plain decimal numerals and ISO
  `YYYY-MM-DD` prefixed date strings.  Exotic inputs (exponents, `inf`,
  underscore separators, non-ISO date spellings) are outside the modelled
  domain.
-/
/-! ## Python string primitives -/
/-- Python whitespace characters (as used by `str.split()` / `\s`). -/
def pySpace (c : Char) : Bool :=
  c = ' ' || c = '\t' || c = '\n' || c = '\r' || c = '\x0b' || c = '\x0c'
/-- Does list `l` start with the list `pat`? (model of `str.startswith` on chars) -/
def listStartsWith : List Char → List Char → Bool
  | _, [] => true
  | [], _ :: _ => false
  | a :: l, b :: m => a == b && listStartsWith l m
/-- Does list `l` contain `pat` as a contiguous infix? (model of Python `in`) -/
def listHasInfix (pat : List Char) : List Char → Bool
  | [] => listStartsWith [] pat
  | l@(_ :: t) => listStartsWith l pat || listHasInfix pat t
/-- Model of Python's `needle in hay` substring test. -/
def strContains (hay needle : String) : Bool :=
  listHasInfix needle.data hay.data

/-- Strip leading and trailing Python whitespace from a character list. -/
def trimChars (l : List Char) : List Char :=
  ((l.dropWhile pySpace).reverse.dropWhile pySpace).reverse

/-- Model of Python `str.strip()`. -/
def pyStrip (s : String) : String := String.mk (trimChars s.data)

/-- Model of Python `str.lower()` (the scraped data is ASCII). -/
def pyLower (s : String) : String := String.mk (s.data.map Char.toLower)

/-- Case-insensitive substring test (model of `str.contains(..., case=False)`;
the pattern is treated as a literal, regex metacharacters are not modelled). -/
def strContainsCI (hay needle : String) : Bool :=
  strContains (pyLower hay) (pyLower needle)

/-- Model of Python `str.startswith`. -/
def pyStarts (s pre : String) : Bool := listStartsWith s.data pre.data

/-- Accumulating scanner behind `pySplitWs`. -/
def wordsGo : List Char → List Char → List (List Char)
  | [], acc => if acc = [] then [] else [acc.reverse]
  | c :: t, acc =>
    if pySpace c then
      (if acc = [] then wordsGo t [] else acc.reverse :: wordsGo t [])
    else wordsGo t (c :: acc)

/-- Model of Python `str.split()`: split on whitespace runs, dropping empties. -/
def pySplitWs (s : String) : List String := (wordsGo s.data []).map String.mk

/-- Accumulating scanner behind `pySplitChar`. -/
def splitOnCharGo (sep : Char) : List Char → List Char → List (List Char)
  | [], acc => [acc.reverse]
  | c :: t, acc =>
    if c = sep then acc.reverse :: splitOnCharGo sep t []
    else splitOnCharGo sep t (c :: acc)

/-- Model of Python `str.split(sep)` for a one-character separator (keeps
empty pieces). -/
def pySplitChar (sep : Char) (s : String) : List String :=
  (splitOnCharGo sep s.data []).map String.mk

/-- Model of Python `sep.join(xs)`. -/
def pyJoin (sep : String) : List String → String
  | [] => ""
  | [x] => x
  | x :: xs => x ++ sep ++ pyJoin sep xs

/-- Model of Python `s.replace(pat, "")`: delete all occurrences of `pat`,
scanning left to right without overlap. -/
def deleteSub (pat : List Char) (l : List Char) : List Char :=
  if hp : pat = [] then l
  else
    match l with
    | [] => []
    | c :: t =>
      if listStartsWith (c :: t) pat then deleteSub pat ((c :: t).drop pat.length)
      else c :: deleteSub pat t
termination_by l.length
decreasing_by
  · simp only [List.length_drop, List.length_cons]
    have hpl : 0 < pat.length := List.length_pos.mpr hp
    omega
  · simp only [List.length_cons]
    omega

def pyDelete (pat : String) (s : String) : String := String.mk (deleteSub pat.data s.data)

/-- Model of `str.replace('\n', ' ')`: a single-character replacement. -/
def replaceNl (s : String) : String :=
  String.mk (s.data.map (fun c => if c = '\n' then ' ' else c))

/-- Code-point lexicographic order on character lists (Python string `<`). -/
def listLtChars : List Char → List Char → Bool
  | [], [] => false
  | [], _ :: _ => true
  | _ :: _, [] => false
  | a :: as, b :: bs =>
    if a.toNat < b.toNat then true
    else if b.toNat < a.toNat then false
    else listLtChars as bs

/-- Python string `<`. -/
def strLt (a b : String) : Bool := listLtChars a.data b.data
/-- Model of Python `str.capitalize()`: first character upper-cased, the rest
lower-cased. -/
def pyCapitalize (s : String) : String :=
  match s.data with
  | [] => ""
  | c :: t => String.mk (c.toUpper :: t.map Char.toLower)
/-- `clean_text` from the query modules: `str(text).lower().strip()`. -/
def clean_text (t : String) : String := pyStrip (pyLower t)
/-- Numeric value of a list of decimal digit characters. -/
def digitsToNat (ds : List Char) : Nat :=
  ds.foldl (fun n c => n * 10 + (c.toNat - 48)) 0
/-- The exact value of a parsed decimal numeral, kept unnormalized as
`num / 10 ^ exp` so that all arithmetic stays in `Int`/`Nat`. -/
structure PyFloat where
  num : Int
  exp : Nat
deriving DecidableEq, Repr

/-- The rational value of a parsed decimal. -/
def PyFloat.toRat (f : PyFloat) : ℚ := (f.num : ℚ) / (10 ^ f.exp)

/-- `(n : ℚ) ≤ f.toRat`, decided by integer arithmetic. -/
def PyFloat.geNat (f : PyFloat) (n : Nat) : Bool := decide ((n : Int) * 10 ^ f.exp ≤ f.num)

/-- Model of Python `float()` on plain decimal numerals: optional surrounding
whitespace, optional sign, digits with an optional fractional part.  Returns
`none` where `float()` raises `ValueError` (exponents, `inf`/`nan` and
underscore separators are outside the modelled domain). -/
def pyFloatParse (s : String) : Option PyFloat :=
  let l := trimChars s.data
  let signed : Int × List Char :=
    match l with
    | '+' :: t => (1, t)
    | '-' :: t => (-1, t)
    | _ => (1, l)
  let sgn := signed.1
  let l := signed.2
  let ip := l.takeWhile Char.isDigit
  let rest := l.dropWhile Char.isDigit
  match rest with
  | [] => if ip = [] then none else some ⟨sgn * digitsToNat ip, 0⟩
  | '.' :: t =>
    let fp := t.takeWhile Char.isDigit
    if t.dropWhile Char.isDigit ≠ [] then none
    else if ip = [] ∧ fp = [] then none
    else some ⟨sgn * (digitsToNat ip * 10 ^ fp.length + digitsToNat fp), fp.length⟩
  | _ => none
/-- Model of `pd.to_datetime(..., errors="coerce")` restricted to the ISO
`YYYY-MM-DD` prefixes occurring in the data: a parsed date is encoded as
`y*10000 + m*100 + d` so that `Nat` order is chronological order; anything
else coerces to `none` (pandas `NaT`). -/
def parseDate (s : String) : Option Nat :=
  match s.data.take 10 with
  | [y1, y2, y3, y4, '-', m1, m2, '-', d1, d2] =>
    if ([y1, y2, y3, y4, m1, m2, d1, d2].all Char.isDigit) then
      let y := digitsToNat [y1, y2, y3, y4]
      let m := digitsToNat [m1, m2]
      let d := digitsToNat [d1, d2]
      if 1 ≤ m ∧ m ≤ 12 ∧ 1 ≤ d ∧ d ≤ 31 then some (y * 10000 + m * 100 + d) else none
    else none
  | _ => none
/-! ## Stable sorting and first-occurrence deduplication

`sSort` is the stable sort used to model pandas `sort_values`; `dropDupFirst`
models `drop_duplicates(keep="first")` (scan keeping the first row of each
key). -/
/-- Stable insertion: `x` is placed before the first element `y` with
`le x y`; ties therefore keep `x` (the earlier input element) first. -/
def sInsert (le : α → α → Bool) (x : α) : List α → List α
  | [] => [x]
  | y :: l => if le x y then x :: y :: l else y :: sInsert le x l
/-- Stable insertion sort (model of pandas `sort_values`). -/
def sSort (le : α → α → Bool) : List α → List α
  | [] => []
  | x :: l => sInsert le x (sSort le l)
/-- Key-based comparison used to model `sort_values(by=key)` on string keys:
`a` may precede `b` iff `key a ≤ key b` in the lexicographic order. -/
def keyLe (key : α → String) (a b : α) : Bool := !(decide (key b < key a))
/-- Model of `drop_duplicates(subset=[key], keep="first")`: scan the rows,
keeping a row iff its key has not been seen yet. -/
def dropDupFirst (key : α → String) : List α → List String → List α
  | [], _ => []
  | x :: l, seen =>
    if seen.contains (key x) then dropDupFirst key l seen
    else x :: dropDupFirst key l (key x :: seen)
/-! ## Enrichment client: `fetch_nvd_data` (utils.py) -/
/-- The dictionary returned by `fetch_nvd_data`. -/
structure NvdTriple where
  cvssScore : String
  severityLevel : String
  mitigationStrategy : String
deriving DecidableEq, Repr
/-- The default dictionary `{"CVSS Score": "N/A", "Severity Level": "N/A",
"Mitigation Strategy": "N/A"}` returned on every failure path. -/
def naTriple : NvdTriple := ⟨"N/A", "N/A", "N/A"⟩
/-- The possible outcomes of the HTTP request to the NVD endpoint, as seen by
the body of `fetch_nvd_data`. -/
inductive NvdResp where
  /-- `requests.get` raised, or `raise_for_status` raised on a non-2xx
  response (this covers network errors and rate-limit responses). -/
  | netError
  /-- `response.json()` or the subsequent field navigation raised. -/
  | badJson
  /-- the JSON has no non-empty `vulnerabilities` array (absent record). -/
  | noVulns
  /-- a record was found; the environment supplies the extracted
  `baseScore`/`baseSeverity`/mitigation strings (each already defaulted to
  `"N/A"` by the `.get` chain when a sub-field is missing). -/
  | ok (score sev mitig : String)
deriving DecidableEq, Repr
/-- utils.py lines 58-80.  Total: every exception inside the body is caught
and turned into `naTriple`, so the embedding never needs an error result. -/
def fetch_nvd_data (apiKey : String) (resp : NvdResp) : NvdTriple :=
  if apiKey = "" then naTriple
  else
    match resp with
    | .netError => naTriple
    | .badJson => naTriple
    | .noVulns => naTriple
    | .ok s v m => ⟨s, v, m⟩
/-! ## Vendor-specific severity derivations -/
/-- paloalto_scraper.py lines 145-160: the literal token "i"/"I" maps to
Informational, a parseable score goes through the CVSS thresholds, and a
`ValueError` from `float()` leaves the initial "N/A". -/
def paSeverityOf (cvss : String) : String :=
  if pyLower cvss = "i" then "Informational"
  else
    match pyFloatParse cvss with
    | some score =>
      if score.geNat 9 then "Critical"
      else if score.geNat 7 then "High"
      else if score.geNat 4 then "Medium"
      else "Low"
    | none => "N/A"
/-- nvidia_scraper.py line 58. -/
def nvidiaValidSeverities : List String :=
  ["N/A", "None", "NVIDIA products are not affected", "Low", "Medium", "High", "Critical"]
/-- nvidia_scraper.py lines 53-63: prefer the `data` attribute when truthy,
else the cell text; anything outside the whitelist is coerced to "N/A". -/
def nvidiaSeverityOf (severityData : Option String) (severityText : String) : String :=
  let severity :=
    match severityData with
    | some s => if s = "" then severityText else s
    | none => severityText
  if nvidiaValidSeverities.contains severity then severity else "N/A"
/-- dell_scraper.py line 94: NVD severity capitalized when present, else the
raw vendor impact badge text. -/
def dellSeverityOf (nvdSeverity impactText : String) : String :=
  if nvdSeverity ≠ "N/A" then pyCapitalize nvdSeverity else impactText
/-! ## Palo Alto scraper (paloalto_scraper.py) -/
/-- One `<tr>` of the advisory table, after BeautifulSoup field extraction. -/
structure PARaw where
  /-- `len(row.find_all("td"))`; rows without exactly 7 cells are skipped. -/
  numTds : Nat
  /-- `cols[0].text` -/
  cvssText : String
  /-- `cols[1].find("a")`: anchor text and `href`, when the anchor exists. -/
  summaryLink : Option (String × String)
  /-- texts of `cols[2].find_all("div")` -/
  versionDivs : List String
  /-- texts of `cols[3].find_all("div")` -/
  affectedDivs : List String
  /-- texts of `cols[4].find_all("div")` -/
  unaffectedDivs : List String
  /-- `cols[5].text` -/
  publishedText : String
  /-- `cols[6].text` -/
  updatedText : String
deriving DecidableEq, Repr
/-- One record of the Palo Alto output table (the dict appended at
paloalto_scraper.py lines 162-175). -/
structure PARec where
  productName : String
  productVersion : String
  oemName : String
  vulnerability : String
  description : String
  publishedDate : String
  lastUpdated : String
  uniqueId : String
  url : String
  severityLevel : String
  affectedVersions : String
  unaffectedVersions : String
deriving DecidableEq, Repr
/-- paloalto_scraper.py lines 127-175: process one row, skipping rows without
exactly 7 cells. -/
def paRowOf (row : PARaw) : Option PARec :=
  if row.numTds ≠ 7 then none
  else
    let cvss_score := (pyStrip row.cvssText)
    let summary :=
      match row.summaryLink with
      | some (t, _) => (pyStrip t)
      | none => "N/A"
    let url0 :=
      match row.summaryLink with
      | some (_, h) => h
      | none => "N/A"
    let url :=
      if url0 ≠ "N/A" ∧ ¬ pyStarts url0 "http"
      then "https://security.paloaltonetworks.com" ++ url0 else url0
    let cve_id :=
      if pyStarts summary "CVE-" || pyStarts summary "PAN-SA-"
      then (pySplitWs summary).headD "" else "N/A"
    let versions := (row.versionDivs.map pyStrip).filter (fun s => s ≠ "")
    let affected := (row.affectedDivs.map pyStrip).filter (fun s => s ≠ "")
    let unaffected := (row.unaffectedDivs.map pyStrip).filter (fun s => s ≠ "")
    some {
      productName := versions.headD "Unknown"
      productVersion :=
        if versions.length > 1 then pyJoin ", " versions.tail else "N/A"
      oemName := "Palo Alto Networks"
      vulnerability := summary
      description := cve_id
      publishedDate := (pyStrip row.publishedText)
      lastUpdated := (pyStrip row.updatedText)
      uniqueId := cve_id
      url := url
      severityLevel := paSeverityOf cvss_score
      affectedVersions := pyJoin "; " affected
      unaffectedVersions := pyJoin "; " unaffected }
/-- Descending order on parsed dates with `NaT` (`none`) sorting last — the
order produced by `sort_values(by=<date>, ascending=False)` (default
`na_position="last"`). -/
def dtDescLe (a b : Option Nat) : Bool :=
  match a, b with
  | some x, some y => decide (y ≤ x)
  | some _, none => true
  | none, some _ => false
  | none, none => true
/-- Dedup key: the `Unique ID` column. -/
def paUidKey (r : PARec) : String := r.uniqueId
/-- Row comparison for the final `sort_values(by="Published Date",
ascending=False)` after `pd.to_datetime(..., errors="coerce")`. -/
def paDateLe (r s : PARec) : Bool :=
  dtDescLe (parseDate r.publishedDate) (parseDate s.publishedDate)
/-- A list is (non-strictly) ordered by the string key — all that
`sort_values` guarantees about its output; it does NOT order ties further. -/
def sortedByKey (key : α → String) (l : List α) : Prop :=
  l.Pairwise (fun a b => ¬ key b < key a)

/-- `result` is an admissible output of `sort_values(by=key)` on `input`: a
permutation of `input` that is ordered by the key.  pandas' default sort
(`kind='quicksort'`) is NOT stable, so the relative order of rows with equal
keys in `result` — the tie order — is not determined by `input`. -/
def admissibleSort (key : α → String) (input result : List α) : Prop :=
  List.Perm result input ∧ sortedByKey key result

/-- paloalto_scraper.py lines 180-182 from the output of the Unique-ID sort:
`drop_duplicates(subset=["Unique ID"], keep="first")` keeps, per id class,
the first row in the SORTED order — so which duplicate survives is decided
entirely by the id sort's tie order — then the frame is re-sorted by parsed
published date descending.  Because that tie order is unspecified (see
`admissibleSort`), this stage is parameterized by the id sort's output.
(The final date sort is modelled with a fixed tie order; nothing proved
about this stage depends on it.) -/
def paDedupFrom (sorted : List PARec) : List PARec :=
  sSort paDateLe (dropDupFirst paUidKey sorted [])

/-- The executable refinement of lines 179-182 used by `scrape_palo_alto`:
it resolves the unspecified tie order of `sort_values(by="Unique ID")` with
a stable insertion sort — one admissible choice among many.  No claim
theorem relies on this choice: C5 is settled over all admissible tie
orders. -/
def paDedupSort (data : List PARec) : List PARec :=
  paDedupFrom (sSort (keyLe paUidKey) data)
/-- The situations the run can be in once the driver part finishes. -/
inductive PAIn where
  /-- the explicit wait and the sleep fallback both failed to find the
  table/rows (`raise Exception(...)` at lines 50/67). -/
  | waitTimeout
  /-- `soup.find("table", class_="tbl salist wide")` found nothing. -/
  | noTableInSource
  /-- no `<tbody>` tags. -/
  | noTbody
  /-- no `<tr>` rows in any tbody. -/
  | noRows
  /-- the parsed rows. -/
  | ok (rows : List PARaw)
deriving DecidableEq, Repr
/-- paloalto_scraper.py `scrape_palo_alto`.  All failure raises happen before
any row is appended, and the `except` handler returns `pd.DataFrame(data)`
with `data` still empty — hence `[]`.  The function is total: nothing
escapes the handler. -/
def scrape_palo_alto (page : PAIn) : List PARec :=
  match page with
  | .waitTimeout => []
  | .noTableInSource => []
  | .noTbody => []
  | .noRows => []
  | .ok rows =>
    let data := rows.filterMap paRowOf
    if data = [] then [] else paDedupSort data
/-! ## NVIDIA scraper (nvidia_scraper.py) -/
/-- One `<tr>` of the NVIDIA table (header already skipped). -/
structure NVRaw where
  /-- `len(row.find_elements("td"))`; rows with fewer than 6 are skipped. -/
  numTds : Nat
  /-- `cols[0].find_element(By.TAG_NAME, "a")`: text and href; `none` makes
  the lookup raise `NoSuchElementException`. -/
  titleLink : Option (String × String)
  /-- `cols[1].text` -/
  bulletinText : String
  /-- `severity_td.get_attribute("data")` -/
  severityData : Option String
  /-- `severity_td.text` -/
  severityText : String
  /-- `cols[3].text` -/
  cveText : String
  /-- `cols[4].text` -/
  publishText : String
  /-- `cols[5].text` -/
  updatedText : String
deriving DecidableEq, Repr
/-- One record of the NVIDIA output table (dict at lines 71-79). -/
structure NVRec where
  title : String
  bulletinId : String
  severity : String
  cveIdentifiers : String
  publishDate : String
  lastUpdated : String
  url : String
deriving DecidableEq, Repr
/-- One pass of `re.sub(r'<.*?>', '', s)`: each `<` opens a span that is
dropped up to the next `>`; a `<` with no later `>` is kept verbatim.
(`.` is modelled as any character; the scraped date strings carry no
newlines.) -/
def stripTagsGo : List Char → Option (List Char) → List Char
  | [], none => []
  | [], some pending => pending.reverse
  | c :: t, none => if c = '<' then stripTagsGo t (some [c]) else c :: stripTagsGo t none
  | c :: t, some pending =>
    if c = '>' then stripTagsGo t none else stripTagsGo t (some (c :: pending))
def stripTags (s : String) : String := String.mk (stripTagsGo s.data none)
/-- `re.split(r' - | \(', s)[0]`: the prefix before the first " - " or " (". -/
def takeBeforeSplit : List Char → List Char
  | [] => []
  | c :: t =>
    if listStartsWith (c :: t) " - ".data || listStartsWith (c :: t) " (".data then []
    else c :: takeBeforeSplit t
/-- nvidia_scraper.py lines 66-69: clean the publish date cell. -/
def nvCleanPublishDate (s : String) : String :=
  pyStrip (String.mk (takeBeforeSplit (stripTags (pyStrip s)).data))
/-- Lines 48-79: one row.  `.ok none` = skipped (fewer than 6 cells),
`.error` = the title-anchor lookup raised (a `WebDriverException`, which
escapes the row loop). -/
def nvRowOf (row : NVRaw) : Except Unit (Option NVRec) :=
  if row.numTds < 6 then .ok none
  else
    match row.titleLink with
    | none => .error ()
    | some (ttext, thref) =>
      .ok (some {
        title := (pyStrip ttext)
        bulletinId := (pyStrip row.bulletinText)
        severity := nvidiaSeverityOf row.severityData (pyStrip row.severityText)
        cveIdentifiers := replaceNl (pyStrip row.cveText)
        publishDate := nvCleanPublishDate row.publishText
        lastUpdated := (pyStrip row.updatedText)
        url := thref })
/-- The row loop (retries on stale elements re-run the same harvest and are
not modelled separately). -/
def nvHarvest : List NVRaw → Except Unit (List NVRec)
  | [] => .ok []
  | r :: t =>
    match nvRowOf r with
    | .error e => .error e
    | .ok none => nvHarvest t
    | .ok (some v) =>
      match nvHarvest t with
      | .error e => .error e
      | .ok l => .ok (v :: l)
inductive NVIn where
  /-- the body/table wait raised `TimeoutException`. -/
  | timeout
  | ok (rows : List NVRaw)
deriving DecidableEq, Repr
/-- nvidia_scraper.py `scrape_nvidia`: timeouts and `WebDriverException`s
(including a missing title anchor) are caught and yield an empty frame. -/
def scrape_nvidia (page : NVIn) : List NVRec :=
  match page with
  | .timeout => []
  | .ok rows =>
    match nvHarvest rows with
    | .error _ => []
    | .ok l => l
/-! ## Cisco scraper (cisco_scraper.py) -/
/-- One `tr.rowRepeat`; every sub-field extraction has its own
`try/except`, so each is an `Option` with the except-branch default. -/
structure CiscoRaw where
  /-- `span.advListItem a`: text and href. -/
  advisoryLink : Option (String × String)
  /-- `td.impactTD` text. -/
  impactText : Option String
  /-- `td:nth-child(3)` text. -/
  cveText : Option String
  /-- `td:nth-child(4) span.ng-binding` text. -/
  lastUpdatedText : Option String
  /-- `td:nth-child(5)` text. -/
  versionText : Option String
deriving DecidableEq, Repr
/-- One record of the Cisco output table (dict at lines 95-101; note the
computed NVD severity is never put into the row). -/
structure CiscoRec where
  oemName : String
  vulnerability : String
  description : String
  url : String
  lastUpdated : String
deriving DecidableEq, Repr
/-- cisco_scraper.py lines 86-87 / intel_scraper.py lines 78-79: the first
whitespace-separated token starting with "CVE-", else "N/A". -/
def primaryCveWs (cveText : String) : String :=
  (((pySplitWs cveText).map pyStrip).filter (fun w => pyStarts w "CVE-")).headD "N/A"
/-- Lines 49-101: one row is always appended; missing sub-fields degrade to
their defaults. -/
def ciscoRowOf (row : CiscoRaw) : CiscoRec :=
  let advisory_title :=
    match row.advisoryLink with
    | some (t, _) => (pyStrip t)
    | none => "N/A"
  let href :=
    match row.advisoryLink with
    | some (_, h) => h
    | none => "#"
  { oemName := "Cisco"
    vulnerability := advisory_title
    description := (row.impactText.map pyStrip).getD "N/A"
    url := href
    lastUpdated := (row.lastUpdatedText.map pyStrip).getD "N/A" }
/-- The identifiers passed to `fetch_nvd_data` by a Cisco run, one entry per
call, in row order (lines 85-92: the lookup runs once per harvested row
whose cve text yields a CVE id; there is no memoization). -/
def ciscoNvdCalls (rows : List CiscoRaw) : List String :=
  rows.filterMap (fun r =>
    let cve_id := primaryCveWs ((r.cveText.map pyStrip).getD "N/A")
    if cve_id ≠ "N/A" then some cve_id else none)
inductive CiscoIn where
  /-- the wait for `tr.rowRepeat` timed out (re-raised, caught at bottom). -/
  | timeout
  /-- `find_elements` returned no rows. -/
  | noRows
  | ok (rows : List CiscoRaw)
deriving DecidableEq, Repr
def scrape_cisco (page : CiscoIn) : List CiscoRec :=
  match page with
  | .timeout => []
  | .noRows => []
  | .ok rows => rows.map ciscoRowOf
/-! ## Intel scraper (intel_scraper.py) -/
structure IntelRaw where
  /-- `len(row.find_all("td"))`; rows with fewer than 4 are skipped. -/
  numTds : Nat
  /-- `columns[0].text` -/
  titleText : String
  /-- `columns[0].find("a")["href"]` when an anchor exists. -/
  link : Option String
  /-- `columns[1].text` -/
  cveText : String
  /-- `columns[2].text` -/
  updatedText : String
  /-- `columns[3].text` -/
  pubDateText : String
deriving DecidableEq, Repr
/-- One record of the Intel output table (dict at lines 89-95; the computed
NVD severity is never put into the row). -/
structure IntelRec where
  oemName : String
  vulnerability : String
  publishedDate : String
  url : String
  lastUpdated : String
deriving DecidableEq, Repr
/-- Lines 64-95: one row, skipped when it has fewer than 4 columns. -/
def intelRowOf (row : IntelRaw) : Option IntelRec :=
  if row.numTds < 4 then none
  else
    let link := row.link.getD "#"
    let full_url := if pyStarts link "/" then "https://www.intel.com" ++ link else link
    some { oemName := "Intel"
           vulnerability := (pyStrip row.titleText)
           publishedDate := (pyStrip row.pubDateText)
           url := full_url
           lastUpdated := (pyStrip row.updatedText) }
/-- The row loop over `rows[:100]` with its skip-and-continue. -/
def intelHarvest : List IntelRaw → List IntelRec
  | [] => []
  | r :: t =>
    match intelRowOf r with
    | none => intelHarvest t
    | some v => v :: intelHarvest t
/-- The identifiers passed to `fetch_nvd_data` by an Intel run, one entry per
call, in row order (lines 77-84; no memoization). -/
def intelNvdCalls (rows : List IntelRaw) : List String :=
  (rows.take 100).filterMap (fun r =>
    if r.numTds < 4 then none
    else
      let cve_id := primaryCveWs (pyStrip r.cveText)
      if cve_id ≠ "N/A" then some cve_id else none)
inductive IntelIn where
  /-- a wait raised `TimeoutException` (after the "View all" fallback). -/
  | timeout
  /-- no `tr.data` rows found. -/
  | noRows
  | ok (rows : List IntelRaw)
deriving DecidableEq, Repr
def scrape_intel (page : IntelIn) : List IntelRec :=
  match page with
  | .timeout => []
  | .noRows => []
  | .ok rows => intelHarvest (rows.take 100)
/-! ## Dell scraper (dell_scraper.py) -/
structure DellRaw where
  /-- `len(row.find_all("div", class_="dds__td"))`; fewer than 6 skips. -/
  numCells : Nat
  /-- `cells[0].find("span", class_="dds__badge__label")` text. -/
  impactBadge : Option String
  /-- `cells[1].find("a", class_="dds__link")`: text and href. -/
  titleLink : Option (String × String)
  /-- `cells[3].find("span", ...)` text. -/
  cveSpan : Option String
  /-- `cells[4].find("div", ...)` text. -/
  publishedDiv : Option String
  /-- `cells[5].find("div", ...)` text. -/
  updatedDiv : Option String
deriving DecidableEq, Repr
/-- One record of the Dell output table (dict at lines 98-106; the severity
string is stored in the `Description` column). -/
structure DellRec where
  oemName : String
  vulnerability : String
  description : String
  publishedDate : String
  uniqueId : String
  url : String
  lastUpdated : String
deriving DecidableEq, Repr
/-- dell_scraper.py lines 87-88: first comma-separated token starting with
"CVE-", else "N/A". -/
def dellPrimaryCve (cveText : String) : String :=
  (((pySplitChar ',' cveText).map pyStrip).filter (fun w => pyStarts w "CVE-")).headD "N/A"
/-- Lines 55-106: one row, skipped when it has fewer than 6 cells.  `nvd` is
the enrichment lookup (`fetch_nvd_data` with its environment applied). -/
def dellRowOf (nvd : String → NvdTriple) (row : DellRaw) : Option DellRec :=
  if row.numCells < 6 then none
  else
    let impact_text := (row.impactBadge.map pyStrip).getD "N/A"
    let title_text := (row.titleLink.map (fun p => (pyStrip p.1))).getD "Unknown"
    let url0 := (row.titleLink.map Prod.snd).getD "#"
    let full_url := if pyStarts url0 "/" then "https://www.dell.com" ++ url0 else url0
    let cve_text := (row.cveSpan.map pyStrip).getD "N/A"
    let cve_id := dellPrimaryCve cve_text
    let triple := if cve_id ≠ "N/A" then nvd cve_id else naTriple
    some { oemName := "Dell"
           vulnerability := title_text
           description := dellSeverityOf triple.severityLevel impact_text
           publishedDate := (row.publishedDiv.map pyStrip).getD "N/A"
           uniqueId := cve_id
           url := full_url
           lastUpdated := (row.updatedDiv.map pyStrip).getD "N/A" }
/-- The row loop over `rows[:100]` with its skip-and-continue. -/
def dellHarvest (nvd : String → NvdTriple) : List DellRaw → List DellRec
  | [] => []
  | r :: t =>
    match dellRowOf nvd r with
    | none => dellHarvest nvd t
    | some v => v :: dellHarvest nvd t
inductive DellIn where
  /-- no `div.dds__tr[role=row]` rows found. -/
  | noRows
  /-- any exception (navigation, per-page selector, ...). -/
  | error
  | ok (rows : List DellRaw)
deriving DecidableEq, Repr
def scrape_dell (nvd : String → NvdTriple) (page : DellIn) : List DellRec :=
  match page with
  | .noRows => []
  | .error => []
  | .ok rows => dellHarvest nvd (rows.take 100)
/-! ## Adobe scraper (adobe_scraper.py) -/
structure AdobeRaw where
  /-- `len(row.find_elements("td"))`; fewer than 3 skips. -/
  numTds : Nat
  sectionName : String
  titleText : String
  postedText : String
  updatedText : String
deriving DecidableEq, Repr
structure AdobeRec where
  sectionName : String
  title : String
  posted : String
  updated : String
  severityLevel : String
deriving DecidableEq, Repr
/-- adobe_scraper.py lines 55-64 / 77-86: every emitted row carries the
constant `"Severity Level": "N/A"`. -/
def adobeRowOf (row : AdobeRaw) : Option AdobeRec :=
  if row.numTds < 3 then none
  else some { sectionName := row.sectionName
              title := (pyStrip row.titleText)
              posted := (pyStrip row.postedText)
              updated := (pyStrip row.updatedText)
              severityLevel := "N/A" }
/-! ## The query-bot DataFrame model

A pandas frame is a column list plus rows; a row is an association list from
column name to cell.  A cell is either still the scraped string or a parsed
datetime (`none` = `NaT`) — the latter appear when a bot runs
`pd.to_datetime` over a column. -/
inductive Cell where
  | str (s : String)
  | dt (d : Option Nat)
deriving DecidableEq, Repr
abbrev QRow := List (String × Cell)
structure DF where
  columns : List String
  rows : List QRow
deriving DecidableEq, Repr
def getCell (r : QRow) (c : String) : Cell :=
  match r.find? (fun p => p.1 == c) with
  | some p => p.2
  | none => Cell.str "N/A"
def cellStr : Cell → String
  | .str s => s
  | .dt _ => ""
def cellDate : Cell → Option Nat
  | .dt d => d
  | .str _ => none
/-- `df[c] = pd.to_datetime(df[c], errors="coerce")` on one cell. -/
def toDatetimeCell : Cell → Cell
  | .str s => .dt (parseDate s)
  | .dt d => .dt d
/-- The in-place column assignment `df[c] = pd.to_datetime(df[c], ...)`:
every cell of column `c` is replaced by its parsed datetime. -/
def DF.convertCol (df : DF) (c : String) : DF :=
  ⟨df.columns,
   df.rows.map (fun r => r.map (fun p => if p.1 == c then (p.1, toDatetimeCell p.2) else p))⟩
/-- `[col for col in required_columns if col not in df.columns]`. -/
def DF.missingFrom (df : DF) (req : List String) : List String :=
  req.filter (fun c => !(df.columns.contains c))
/-- `pd.DataFrame([{"Response": msg}])`. -/
def responseDF (msg : String) : DF := ⟨["Response"], [[("Response", Cell.str msg)]]⟩
def couldNotUnderstand : DF :=
  responseDF "❓ I couldn't understand the question. Please try rephrasing."
/-- `N` selection shared by all three bots: default 5, `"10" in question`
wins over `"5" in question`. -/
def latestN (q : String) : Nat :=
  if strContains q "10" then 10
  else if strContains q "5" then 5
  else 5
def severityLevelsList : List String := ["critical", "high", "medium", "low"]
/-- `sort_values(by=c, ascending=False)` on a datetime column: descending,
`NaT` last, stable. -/
def sortRowsDateDesc (c : String) (rows : List QRow) : List QRow :=
  sSort (fun r s => dtDescLe (cellDate (getCell r c)) (cellDate (getCell s c))) rows
/-- `sort_values(by=c, ascending=False)` on a raw string column: descending
lexicographic, stable. -/
def sortRowsStrDesc (c : String) (rows : List QRow) : List QRow :=
  sSort (fun r s => !(strLt (cellStr (getCell r c)) (cellStr (getCell s c)))) rows
/-- `df[[c₁, …]]` column selection on one row. -/
def selectCols (cols : List String) (r : QRow) : QRow :=
  cols.map (fun c => (c, getCell r c))
/-! ### Regex models

Each `re.search` pattern used by the bots is modelled by a left-to-right
scanner.  `.`/`\S` are modelled as any/non-space characters; the
backtracking corner case where a greedy `\s+` donates trailing whitespace
to a following `.+` is not modelled (no bot question in the claims hits
it). -/
/-- `re.search(r'for\s+(.+)', q)`: "for", some whitespace, a nonempty
remainder; the capture is the remainder. -/
def forCaptureGo : List Char → Option (List Char)
  | 'f' :: 'o' :: 'r' :: rest =>
    (match rest with
     | c :: _ =>
       if pySpace c then
         let after := rest.dropWhile pySpace
         if after ≠ [] then some after else forCaptureGo ('o' :: 'r' :: rest)
       else forCaptureGo ('o' :: 'r' :: rest)
     | [] => none)
  | _ :: t => forCaptureGo t
  | [] => none
def forCapture (q : String) : Option String := (forCaptureGo q.data).map String.mk
/-- `re.search(r'for\s+([A-Z0-9-]+)', q)` (palo_alto_queries.py; note the
questions are lower-cased first, so letters never match the class). -/
def upperIdChar (c : Char) : Bool := ('A' ≤ c && c ≤ 'Z') || c.isDigit || c = '-'
def upperCaptureGo : List Char → Option (List Char)
  | 'f' :: 'o' :: 'r' :: rest =>
    (match rest with
     | c :: _ =>
       if pySpace c then
         let tok := (rest.dropWhile pySpace).takeWhile upperIdChar
         if tok ≠ [] then some tok else upperCaptureGo ('o' :: 'r' :: rest)
       else upperCaptureGo ('o' :: 'r' :: rest)
     | [] => none)
  | _ :: t => upperCaptureGo t
  | [] => none
def upperCapture (q : String) : Option String := (upperCaptureGo q.data).map String.mk
/-- `re.search(r'after\s+(\d{4})', q)`: the first "after" followed by
whitespace and at least four digits; captures the four digits as a year. -/
def yearCaptureGo : List Char → Option Nat
  | 'a' :: 'f' :: 't' :: 'e' :: 'r' :: rest =>
    (match rest with
     | c :: _ =>
       if pySpace c then
         let ds := (rest.dropWhile pySpace).takeWhile Char.isDigit
         if ds.length ≥ 4 then some (digitsToNat (ds.take 4))
         else yearCaptureGo ('f' :: 't' :: 'e' :: 'r' :: rest)
       else yearCaptureGo ('f' :: 't' :: 'e' :: 'r' :: rest)
     | [] => none)
  | _ :: t => yearCaptureGo t
  | [] => none
def yearCapture (q : String) : Option Nat := yearCaptureGo q.data
/-- `re.search(r'cve-\d{4}-\d{4,7}', q)`: returns the matched text. -/
def cveCaptureGo : List Char → Option (List Char)
  | 'c' :: 'v' :: 'e' :: '-' :: rest =>
    (match rest with
     | a :: b :: c :: d :: '-' :: rest2 =>
       if ([a, b, c, d].all Char.isDigit) then
         let ds := rest2.takeWhile Char.isDigit
         if ds.length ≥ 4 then
           some ('c' :: 'v' :: 'e' :: '-' :: a :: b :: c :: d :: '-' :: ds.take 7)
         else cveCaptureGo ('v' :: 'e' :: '-' :: rest)
       else cveCaptureGo ('v' :: 'e' :: '-' :: rest)
     | _ => cveCaptureGo ('v' :: 'e' :: '-' :: rest))
  | _ :: t => cveCaptureGo t
  | [] => none
def cveCapture (q : String) : Option String := (cveCaptureGo q.data).map String.mk
/-- `re.search(r'details for\s+(https?://\S+)', q)`. -/
def urlCaptureGo : List Char → Option (List Char)
  | 'd' :: 'e' :: 't' :: 'a' :: 'i' :: 'l' :: 's' :: ' ' :: 'f' :: 'o' :: 'r' :: rest =>
    (match rest with
     | c :: _ =>
       if pySpace c then
         let tok := (rest.dropWhile pySpace).takeWhile (fun ch => !(pySpace ch))
         if (listStartsWith tok "http://".data && tok.length > 7)
            || (listStartsWith tok "https://".data && tok.length > 8)
         then some tok
         else urlCaptureGo ('e' :: 't' :: 'a' :: 'i' :: 'l' :: 's' :: ' ' :: 'f' :: 'o' :: 'r' :: rest)
       else urlCaptureGo ('e' :: 't' :: 'a' :: 'i' :: 'l' :: 's' :: ' ' :: 'f' :: 'o' :: 'r' :: rest)
     | [] => none)
  | _ :: t => urlCaptureGo t
  | [] => none
def urlCapture (q : String) : Option String := (urlCaptureGo q.data).map String.mk
/-! ### NVIDIA query bot (nvidia_queries.py) -/
def nvidiaRequiredColumns : List String :=
  ["title", "bulletin_id", "severity", "cve_identifier(s)", "publish_date",
   "last_updated", "url", "severity_level"]
/-- `for title in df["title"]: if clean_text(title) in question: return
df[df["title"] == title][["title", col2]]` — the three title-driven
branches share this; `none` = the loop fell through. -/
def nvTitleLookup (q : String) (df : DF) (col2 : String) : Option DF :=
  match df.rows.find? (fun r => strContains q (clean_text (cellStr (getCell r "title")))) with
  | some r0 =>
    let t := cellStr (getCell r0 "title")
    some ⟨["title", col2],
          (df.rows.filter (fun r => cellStr (getCell r "title") == t)).map
            (selectCols ["title", col2])⟩
  | none => none
/-- Branches from "show details of" down to the default answer. -/
def nvidiaAnswerRest2 (q : String) (df : DF) : DF :=
  if strContains q "show details of" || strContains q "info about" then
    let keyword := pyStrip (pyDelete "info about" (pyDelete "show details of" q))
    ⟨df.columns, df.rows.filter (fun r => strContains (pyLower (cellStr (getCell r "title"))) keyword)⟩
  else if strContains q "search cve" || strContains q "find cve" then
    let lastWord := (pySplitWs q).getLastD ""
    let withCve := df.rows.filter (fun r => strContainsCI (cellStr (getCell r "cve_identifier(s)")) "CVE-")
    ⟨df.columns, withCve.filter (fun r => strContainsCI (cellStr (getCell r "cve_identifier(s)")) lastWord)⟩
  else couldNotUnderstand
/-- "url/link for bulletin" branch: the first all-digit word names the id. -/
def nvidiaAnswerRest (q : String) (df : DF) : DF :=
  if strContains q "url for bulletin" || strContains q "link for bulletin" then
    match (pySplitWs q).find? (fun w => w ≠ "" && w.data.all Char.isDigit) with
    | some w =>
      ⟨["bulletin_id", "url"],
       (df.rows.filter (fun r => cellStr (getCell r "bulletin_id") == w)).map
         (selectCols ["bulletin_id", "url"])⟩
    | none => nvidiaAnswerRest2 q df
  else nvidiaAnswerRest2 q df
def nvidiaAnswerMid2 (q : String) (df : DF) : DF :=
  if strContains q "last updated for" then
    match nvTitleLookup q df "last_updated" with
    | some res => res
    | none => nvidiaAnswerRest q df
  else nvidiaAnswerRest q df
def nvidiaAnswerMid (q : String) (df : DF) : DF :=
  if strContains q "publish date for" then
    match nvTitleLookup q df "publish_date" with
    | some res => res
    | none => nvidiaAnswerMid2 q df
  else nvidiaAnswerMid2 q df
/-- nvidia_queries.py lines 29-83, after the column check.  Note the latest
branch sorts the raw `publish_date` strings — there is no `pd.to_datetime`
in this bot. -/
def nvidiaAnswer (q : String) (df : DF) : DF :=
  if strContains q "latest" || strContains q "recent" then
    ⟨df.columns, (sortRowsStrDesc "publish_date" df.rows).take (latestN q)⟩
  else
    match severityLevelsList.find? (fun lv => strContains q (lv ++ " severity")) with
    | some lv =>
      ⟨df.columns, df.rows.filter (fun r => pyLower (cellStr (getCell r "severity_level")) == lv)⟩
    | none =>
      if strContains q "cve for" || strContains q "cves for" then
        match nvTitleLookup q df "cve_identifier(s)" with
        | some res => res
        | none => nvidiaAnswerMid q df
      else nvidiaAnswerMid q df
/-- `query_nvidia_bot`: the pair is (the caller's frame after the call,
the returned frame); this bot never mutates the input. -/
def query_nvidia_bot (question : String) (df : DF) : DF × DF :=
  let q := clean_text question
  let missing := df.missingFrom nvidiaRequiredColumns
  if missing = [] then (df, nvidiaAnswer q df)
  else
    (df, responseDF ("❌ Missing required columns: " ++ pyJoin ", " missing
      ++ ". Please ensure the data includes these columns."))
/-! ### Cisco query bot (cisco_queries.py) -/
def ciscoRequiredColumns : List String :=
  ["oem_name", "vulnerability", "severity", "url", "last_updated", "severity_level"]
/-- cisco_queries.py lines 32-66, after the column check and the in-place
`pd.to_datetime` on `last_updated`. -/
def ciscoAnswer (q : String) (df : DF) : DF :=
  if strContains q "latest" || strContains q "recent" then
    ⟨df.columns, (sortRowsDateDesc "last_updated" df.rows).take (latestN q)⟩
  else
    match severityLevelsList.find? (fun lv =>
        strContains q (lv ++ " severity") || strContains q (lv ++ " vulnerabilities")) with
    | some lv =>
      ⟨df.columns, df.rows.filter (fun r => pyLower (cellStr (getCell r "severity_level")) == lv)⟩
    | none =>
      match forCapture q with
      | some product =>
        ⟨df.columns, df.rows.filter (fun r =>
          strContainsCI (cellStr (getCell r "vulnerability")) (pyStrip product))⟩
      | none =>
        match urlCapture q with
        | some url =>
          ⟨df.columns, df.rows.filter (fun r => cellStr (getCell r "url") == url)⟩
        | none =>
          if strContains q "after" then
            match yearCapture q with
            | some year =>
              ⟨df.columns, df.rows.filter (fun r =>
                match cellDate (getCell r "last_updated") with
                | some d => decide (year * 10000 + 101 < d)
                | none => false)⟩
            | none => couldNotUnderstand
          else couldNotUnderstand
/-- `query_cisco_bot`: when the columns are present, line 30 assigns
`df["last_updated"] = pd.to_datetime(df["last_updated"], errors='coerce')`
**in place on the caller's frame** — the first component of the pair is the
caller's frame after the call. -/
def query_cisco_bot (question : String) (df : DF) : DF × DF :=
  let q := clean_text question
  let missing := df.missingFrom ciscoRequiredColumns
  if missing = [] then
    let df2 := df.convertCol "last_updated"
    (df2, ciscoAnswer q df2)
  else
    (df, responseDF ("❌ Missing required columns: " ++ pyJoin ", " missing ++ "."))
/-! ### Palo Alto query bot (palo_alto_queries.py) -/
def paRequiredColumns : List String :=
  ["product_name", "vulnerability", "published_date", "severity_level",
   "unique_id", "affected_versions", "unaffected_versions"]
def paUnaffBranch (q : String) (df : DF) : DF :=
  if strContains q "unaffected versions for" then
    match upperCapture q with
    | some advisory_id =>
      match df.rows.filter (fun r => cellStr (getCell r "unique_id") == advisory_id) with
      | [] => couldNotUnderstand
      | r0 :: _ => ⟨["Unaffected Versions"], [[("Unaffected Versions", getCell r0 "unaffected_versions")]]⟩
    | none => couldNotUnderstand
  else couldNotUnderstand
/-- Note `"affected versions for"` is a substring of
`"unaffected versions for"`, so both kinds of question enter here; an empty
filter result falls through. -/
def paAffBranch (q : String) (df : DF) : DF :=
  if strContains q "affected versions for" then
    match upperCapture q with
    | some advisory_id =>
      match df.rows.filter (fun r => cellStr (getCell r "unique_id") == advisory_id) with
      | [] => paUnaffBranch q df
      | r0 :: _ => ⟨["Affected Versions"], [[("Affected Versions", getCell r0 "affected_versions")]]⟩
    | none => paUnaffBranch q df
  else paUnaffBranch q df
/-- palo_alto_queries.py lines 32-86, after the column check and the
in-place `pd.to_datetime` on `published_date`. -/
def paQAnswer (q : String) (df : DF) : DF :=
  if strContains q "latest" || strContains q "recent" then
    ⟨df.columns, (sortRowsDateDesc "published_date" df.rows).take (latestN q)⟩
  else
    match severityLevelsList.find? (fun lv =>
        strContains q (lv ++ " severity") || strContains q (lv ++ " vulnerabilities")) with
    | some lv =>
      ⟨df.columns, df.rows.filter (fun r => pyLower (cellStr (getCell r "severity_level")) == lv)⟩
    | none =>
      match forCapture q with
      | some product =>
        ⟨df.columns, df.rows.filter (fun r =>
          strContainsCI (cellStr (getCell r "product_name")) (pyStrip product))⟩
      | none =>
        match cveCapture q with
        | some cve_id =>
          ⟨df.columns, df.rows.filter (fun r =>
            strContainsCI (cellStr (getCell r "unique_id")) cve_id)⟩
        | none =>
          if strContains q "after" then
            match yearCapture q with
            | some year =>
              ⟨df.columns, df.rows.filter (fun r =>
                match cellDate (getCell r "published_date") with
                | some d => decide (year * 10000 + 101 < d)
                | none => false)⟩
            | none => paAffBranch q df
          else paAffBranch q df
/-- `query_palo_alto_bot`: line 30 re-assigns `published_date` in place on
the caller's frame, as in the Cisco bot. -/
def query_palo_alto_bot (question : String) (df : DF) : DF × DF :=
  let q := clean_text question
  let missing := df.missingFrom paRequiredColumns
  if missing = [] then
    let df2 := df.convertCol "published_date"
    (df2, paQAnswer q df2)
  else
    (df, responseDF ("❌ Missing required columns: " ++ pyJoin ", " missing ++ "."))

/-! ## Concrete example tables and rows used by the claim theorems -/

def nvExampleRow (d : String) : QRow :=
  [("title", Cell.str ("Advisory " ++ d)), ("bulletin_id", Cell.str "5648"),
   ("severity", Cell.str "High"), ("cve_identifier(s)", Cell.str "CVE-2025-23254"),
   ("publish_date", Cell.str d), ("last_updated", Cell.str d),
   ("url", Cell.str "https://nvidia.example/a"), ("severity_level", Cell.str "high")]

def nvExampleDF : DF :=
  ⟨nvidiaRequiredColumns,
   [nvExampleRow "2025-05-08", nvExampleRow "2025-05-07", nvExampleRow "2025-05-07",
    nvExampleRow "unknown"]⟩

def ciscoExampleRow (d : String) : QRow :=
  [("oem_name", Cell.str "Cisco"), ("vulnerability", Cell.str ("Vuln " ++ d)),
   ("severity", Cell.str "High"), ("url", Cell.str "https://cisco.example/a"),
   ("last_updated", Cell.str d), ("severity_level", Cell.str "high")]

def ciscoExampleDF : DF :=
  ⟨ciscoRequiredColumns,
   [ciscoExampleRow "2025-05-08 00:00:00", ciscoExampleRow "2025-05-07 00:00:00",
    ciscoExampleRow "2025-05-07 00:00:00", ciscoExampleRow "unknown"]⟩

def emptyDF : DF := ⟨[], []⟩

def ciscoDupRow : CiscoRaw :=
  ⟨some ("Title", "https://cisco.example/x"), some "High", some "CVE-2025-0001",
   some "2025-05-07", some "1.0"⟩

def nvGoodRaw : NVRaw :=
  ⟨6, some ("Title", "https://nvidia.example/x"), "5648", some "High", "High",
   "CVE-2025-0001", "07 May 2025", "07 May 2025"⟩

def nvGoodRec : NVRec :=
  ⟨"Title", "5648", "High", "CVE-2025-0001", "07 May 2025", "07 May 2025",
   "https://nvidia.example/x"⟩

def paExampleRaw : PARaw :=
  ⟨7, "N/A", some ("CVE-2025-0001 PAN-OS", "/CVE-2025-0001"), ["PAN-OS"], [], [],
   "2025-04-09", "2025-04-09"⟩

/-- Two distinct Palo Alto records sharing one Unique ID: the first and the
second harvested occurrence of CVE-2025-0001. -/
def paDupFirstRec : PARec :=
  ⟨"PAN-OS", "N/A", "Palo Alto Networks", "CVE-2025-0001 PAN-OS first occurrence",
   "CVE-2025-0001", "2025-05-08", "2025-05-08", "CVE-2025-0001",
   "https://security.paloaltonetworks.com/CVE-2025-0001", "Critical", "", ""⟩

def paDupSecondRec : PARec :=
  ⟨"Prisma Access", "N/A", "Palo Alto Networks", "CVE-2025-0001 second occurrence",
   "CVE-2025-0001", "2025-05-07", "2025-05-07", "CVE-2025-0001",
   "https://security.paloaltonetworks.com/CVE-2025-0001", "High", "", ""⟩

/-- The per-row "call the enrichment lookup unless the id is N/A" step, as a
named function (used to state the call-count lemmas). -/
def callOf {β : Type} (f : β → String) (r : β) : Option String :=
  if f r ≠ "N/A" then some (f r) else none

/-- The Intel per-row call step, which also skips short rows. -/
def intelCallOf (r : IntelRaw) : Option String :=
  if r.numTds < 4 then none
  else if primaryCveWs (pyStrip r.cveText) ≠ "N/A"
    then some (primaryCveWs (pyStrip r.cveText)) else none

/-! ## Lemmas about the sorting and deduplication infrastructure -/

theorem PyFloat.geNat_iff (f : PyFloat) (n : Nat) :
    f.geNat n = true ↔ (n : ℚ) ≤ f.toRat := by
  simp only [PyFloat.geNat, PyFloat.toRat, decide_eq_true_eq]
  rw [le_div_iff (by positivity : (0 : ℚ) < 10 ^ f.exp)]
  constructor <;> intro h <;> exact_mod_cast h

theorem sInsert_perm (le : α → α → Bool) (x : α) (l : List α) :
    List.Perm (sInsert le x l) (x :: l) := by
  induction l with
  | nil => simp [sInsert]
  | cons y t ih =>
    simp only [sInsert]
    split
    · exact List.Perm.refl _
    · exact ((ih.cons y).trans (List.Perm.swap x y t))

theorem sSort_perm (le : α → α → Bool) (l : List α) :
    List.Perm (sSort le l) l := by
  induction l with
  | nil => simp [sSort]
  | cons x t ih => exact (sInsert_perm le x (sSort le t)).trans (ih.cons x)

theorem length_sSort (le : α → α → Bool) (l : List α) :
    (sSort le l).length = l.length :=
  (sSort_perm le l).length_eq

theorem mem_of_mem_sSort {le : α → α → Bool} {l : List α} {x : α}
    (h : x ∈ sSort le l) : x ∈ l :=
  (sSort_perm le l).mem_iff.mp h

/-- Inserting preserves pairwise order when `le` is total and transitive. -/
theorem pairwise_sInsert (le : α → α → Bool)
    (total : ∀ a b, le a b = true ∨ le b a = true)
    (trans : ∀ a b c, le a b = true → le b c = true → le a c = true)
    (x : α) (l : List α) (h : l.Pairwise (fun a b => le a b = true)) :
    (sInsert le x l).Pairwise (fun a b => le a b = true) := by
  induction l with
  | nil => simp [sInsert]
  | cons y t ih =>
    simp only [sInsert]
    rcases List.pairwise_cons.mp h with ⟨hy, ht⟩
    split
    · rename_i hxy
      refine List.pairwise_cons.mpr ⟨?_, h⟩
      intro z hz
      rcases List.mem_cons.mp hz with rfl | hz'
      · exact hxy
      · exact trans x y z hxy (hy _ hz')
    · rename_i hxy
      have hyx : le y x = true := by
        rcases total x y with h' | h'
        · exact absurd h' hxy
        · exact h'
      refine List.pairwise_cons.mpr ⟨?_, ih ht⟩
      intro z hz
      have hz' : z ∈ x :: t := (sInsert_perm le x t).mem_iff.mp hz
      rcases List.mem_cons.mp hz' with rfl | hz''
      · exact hyx
      · exact hy _ hz''

theorem pairwise_sSort (le : α → α → Bool)
    (total : ∀ a b, le a b = true ∨ le b a = true)
    (trans : ∀ a b c, le a b = true → le b c = true → le a c = true)
    (l : List α) :
    (sSort le l).Pairwise (fun a b => le a b = true) := by
  induction l with
  | nil => simp [sSort]
  | cons x t ih => exact pairwise_sInsert le total trans x (sSort le t) ih

/-- `keyLe` is total (the string order is linear). -/
theorem keyLe_total (key : α → String) :
    ∀ a b, keyLe key a b = true ∨ keyLe key b a = true := by
  intro a b
  by_cases h : key b < key a
  · right
    have h2 : ¬ key a < key b := lt_asymm h
    simp [keyLe, h2]
  · left
    simp [keyLe, h]

/-- `keyLe` is transitive. -/
theorem keyLe_trans (key : α → String) :
    ∀ a b c, keyLe key a b = true → keyLe key b c = true → keyLe key a c = true := by
  intro a b c h1 h2
  have h1' : ¬ key b < key a := by simpa [keyLe] using h1
  have h2' : ¬ key c < key b := by simpa [keyLe] using h2
  have h3 : ¬ key c < key a := not_lt.mpr (le_trans (not_lt.mp h1') (not_lt.mp h2'))
  simp [keyLe, h3]

theorem filter_dropDupFirst (key : α → String) (c : String) :
    ∀ (l : List α) (seen : List String),
      (dropDupFirst key l seen).filter (fun a => key a == c) =
        (if seen.contains c then [] else (l.filter (fun a => key a == c)).take 1) := by
  intro l
  induction l with
  | nil => intro seen; cases h : seen.contains c <;> simp [dropDupFirst, h]
  | cons x t ih =>
    intro seen
    simp only [dropDupFirst]
    by_cases hx : seen.contains (key x) = true
    · rw [if_pos hx, ih]
      by_cases hc : seen.contains c = true
      · rw [if_pos hc, if_pos hc]
      · have hxc : (key x == c) = false := by
          refine beq_eq_false_iff_ne.mpr ?_
          intro hkc
          rw [hkc] at hx
          exact hc hx
        rw [if_neg hc, if_neg hc, List.filter_cons, if_neg (by simp [hxc])]
    · rw [if_neg hx]
      by_cases hxc : (key x == c) = true
      · have hkc : key x = c := by simpa using hxc
        have hcseen : seen.contains c = false := by
          rw [← hkc]
          exact Bool.eq_false_iff.mpr (fun h => hx h)
        have hcseen2 : (key x :: seen).contains c = true := by
          rw [hkc]
          simp [List.contains_cons]
        rw [List.filter_cons, if_pos hxc, ih, if_pos hcseen2,
          if_neg (by rw [hcseen]; exact Bool.false_ne_true), List.filter_cons, if_pos hxc]
        simp
      · have hxc' : (key x == c) = false := by simpa using hxc
        have hxcneg : ¬((key x == c) = true) := by simp [hxc']
        have hkc : key x ≠ c := by simpa using hxc
        have hcont : ((key x :: seen).contains c) = seen.contains c := by
          simp [List.contains_cons, Ne.symm hkc]
        rw [List.filter_cons, if_neg hxcneg, ih, hcont]
        by_cases hc : seen.contains c = true
        · rw [if_pos hc, if_pos hc]
        · rw [if_neg hc, if_neg hc, List.filter_cons, if_neg hxcneg]

/-! ## Helper lemmas about the embedded code -/

theorem dtDescLe_total (a b : Option Nat) : dtDescLe a b = true ∨ dtDescLe b a = true := by
  cases a <;> cases b <;> simp [dtDescLe] <;> omega

theorem dtDescLe_trans (a b c : Option Nat)
    (h1 : dtDescLe a b = true) (h2 : dtDescLe b c = true) : dtDescLe a c = true := by
  cases a <;> cases b <;> cases c <;> simp [dtDescLe] at h1 h2 ⊢ <;> omega

theorem mem_dropDupFirst {key : α → String} :
    ∀ {l : List α} {seen : List String} {x : α}, x ∈ dropDupFirst key l seen → x ∈ l := by
  intro l
  induction l with
  | nil => intro seen x h; simp [dropDupFirst] at h
  | cons y t ih =>
    intro seen x h
    simp only [dropDupFirst] at h
    split at h
    · exact List.mem_cons_of_mem y (ih h)
    · rcases List.mem_cons.mp h with rfl | h'
      · exact List.mem_cons_self x t
      · exact List.mem_cons_of_mem y (ih h')

theorem paRowOf_oem {raw : PARaw} {r : PARec} (h : paRowOf raw = some r) :
    r.oemName = "Palo Alto Networks" := by
  simp only [paRowOf] at h
  split at h
  · exact absurd h (by simp)
  · cases h
    rfl

theorem filterMap_paRowOf_oem {raws : List PARaw} {r : PARec}
    (h : r ∈ raws.filterMap paRowOf) : r.oemName = "Palo Alto Networks" := by
  rcases List.mem_filterMap.mp h with ⟨raw, _, hr⟩
  exact paRowOf_oem hr

theorem intelHarvest_eq_filterMap (l : List IntelRaw) :
    intelHarvest l = l.filterMap intelRowOf := by
  induction l with
  | nil => rfl
  | cons r t ih =>
    simp only [intelHarvest, List.filterMap_cons]
    cases h : intelRowOf r <;> simp [h, ih]

theorem dellHarvest_eq_filterMap (nvd : String → NvdTriple) (l : List DellRaw) :
    dellHarvest nvd l = l.filterMap (dellRowOf nvd) := by
  induction l with
  | nil => rfl
  | cons r t ih =>
    simp only [dellHarvest, List.filterMap_cons]
    cases h : dellRowOf nvd r <;> simp [h, ih]

theorem nvHarvest_replicate {r : NVRaw} {v : NVRec} (h : nvRowOf r = .ok (some v)) :
    ∀ n, nvHarvest (List.replicate n r) = .ok (List.replicate n v) := by
  intro n
  induction n with
  | zero => rfl
  | succ n ih => simp [List.replicate_succ, nvHarvest, h, ih]

/-- Counting calls emitted by a "lookup unless N/A" row loop: each row whose
extracted id equals `id` contributes exactly one call. -/
theorem count_callsOf {β : Type} (f : β → String) (id : String) (hid : id ≠ "N/A") :
    ∀ rows : List β,
      ((rows.filterMap (callOf f)).count id)
        = (rows.filter (fun r => f r == id)).length := by
  intro rows
  induction rows with
  | nil => rfl
  | cons r t ih =>
    by_cases h : f r = "N/A"
    · have hg : callOf f r = none := by simp [callOf, h]
      have h1 : (f r == id) = false := by
        rw [h]
        exact beq_eq_false_iff_ne.mpr (Ne.symm hid)
      rw [List.filterMap_cons_none hg, List.filter_cons, h1]
      simpa using ih
    · have hg : callOf f r = some (f r) := if_pos h
      by_cases h2 : f r = id
      · rw [List.filterMap_cons_some hg, List.filter_cons, h2, List.count_cons_self,
          if_pos (show ((id == id) = true) by simp), List.length_cons, ih]
      · have h1 : (f r == id) = false := beq_eq_false_iff_ne.mpr h2
        rw [List.filterMap_cons_some hg, List.filter_cons,
          List.count_cons_of_ne (fun he => h2 he.symm), h1, ih]
        simp

/-- The Intel variant: the loop also skips rows with fewer than 4 cells. -/
theorem count_intelCalls (id : String) (hid : id ≠ "N/A") :
    ∀ l : List IntelRaw,
      ((l.filterMap intelCallOf).count id)
        = (l.filter (fun r =>
            !(decide (r.numTds < 4)) && (primaryCveWs (pyStrip r.cveText) == id))).length := by
  intro l
  induction l with
  | nil => rfl
  | cons r t ih =>
    by_cases hn : r.numTds < 4
    · have hg : intelCallOf r = none := if_pos hn
      have hc : (!(decide (r.numTds < 4)) && (primaryCveWs (pyStrip r.cveText) == id)) = false := by
        simp [hn]
      rw [List.filterMap_cons_none hg, List.filter_cons, if_neg (by simp [hc])]
      exact ih
    · by_cases h : primaryCveWs (pyStrip r.cveText) = "N/A"
      · have hg : intelCallOf r = none := by simp [intelCallOf, hn, h]
        have h1 : (primaryCveWs (pyStrip r.cveText) == id) = false := by
          rw [h]
          exact beq_eq_false_iff_ne.mpr (Ne.symm hid)
        have hc : (!(decide (r.numTds < 4)) && (primaryCveWs (pyStrip r.cveText) == id)) = false := by
          simp [h1]
        rw [List.filterMap_cons_none hg, List.filter_cons, if_neg (by simp [hc])]
        exact ih
      · have hg : intelCallOf r = some (primaryCveWs (pyStrip r.cveText)) := by
          simp [intelCallOf, hn, h]
        by_cases h2 : primaryCveWs (pyStrip r.cveText) = id
        · have hc : (!(decide (r.numTds < 4)) && (primaryCveWs (pyStrip r.cveText) == id)) = true := by
            simp [hn, h2]
          rw [List.filterMap_cons_some hg, List.filter_cons, if_pos hc, h2,
            List.count_cons_self, List.length_cons, ih]
        · have h1 : (primaryCveWs (pyStrip r.cveText) == id) = false := beq_eq_false_iff_ne.mpr h2
          have hc : (!(decide (r.numTds < 4)) && (primaryCveWs (pyStrip r.cveText) == id)) = false := by
            simp [h1]
          rw [List.filterMap_cons_some hg, List.filter_cons, if_neg (by simp [hc]),
            List.count_cons_of_ne (fun he => h2 he.symm), ih]

/-! ## The claims -/

/-- C1 (counterexample): a well-formed Palo Alto row whose CVSS cell holds the
site's literal "N/A" is emitted with `Severity Level = "N/A"`, which is not
one of the six enum values {Critical, High, Medium, Low, Informational,
Unknown} — so extractor rows do not always carry one of the six values. -/
theorem C1_counterexample_severity_na :
    (paRowOf paExampleRaw).map PARec.severityLevel = some "N/A"
    ∧ "N/A" ∉ ["Critical", "High", "Medium", "Low", "Informational", "Unknown"] := by
  refine ⟨by decide, by decide⟩

/-- C1 (amended): the severity field of each extractor ranges over a
vendor-specific finite set that includes "N/A" instead of "Unknown":
Palo Alto rows carry one of {Critical, High, Medium, Low, Informational,
N/A}; NVIDIA rows carry a value of the fixed whitelist (unexpected vendor
text is coerced to "N/A"); Adobe rows always carry "N/A"; and Dell falls
back to the raw vendor impact text when enrichment yields "N/A" (Cisco and
Intel rows carry no severity field at all, as their record shape shows). -/
theorem C1_amended_severity_sets :
    (∀ s, paSeverityOf s ∈ ["Critical", "High", "Medium", "Low", "Informational", "N/A"])
    ∧ (∀ d t, nvidiaSeverityOf d t ∈ nvidiaValidSeverities)
    ∧ (∀ raw, (adobeRowOf raw).all (fun r => r.severityLevel == "N/A") = true)
    ∧ (∀ impact, dellSeverityOf "N/A" impact = impact) := by
  refine ⟨?_, ?_, ?_, ?_⟩
  · intro s
    simp only [paSeverityOf]
    split
    · simp
    · split
      · split
        · simp
        · split
          · simp
          · split <;> simp
      · simp
  · intro d t
    simp only [nvidiaSeverityOf]
    split
    · rename_i h
      exact List.mem_of_elem_eq_true h
    · simp [nvidiaValidSeverities]
  · intro raw
    simp only [adobeRowOf]
    split <;> simp
  · intro impact
    simp [dellSeverityOf]

/-- C2: the Palo Alto severity is derived from the CVSS score string by the
fixed thresholds — the token "I" (case-insensitive) yields Informational,
and a parseable score `s` yields Critical when `s ≥ 9`, High when
`7 ≤ s < 9`, Medium when `4 ≤ s < 7`, Low when `s < 4`. -/
theorem C2_palo_severity_thresholds :
    (∀ s : String, pyLower s = "i" → paSeverityOf s = "Informational")
    ∧ (∀ (s : String) (f : PyFloat), pyFloatParse s = some f → pyLower s ≠ "i" →
        (9 ≤ f.toRat → paSeverityOf s = "Critical")
        ∧ (7 ≤ f.toRat ∧ f.toRat < 9 → paSeverityOf s = "High")
        ∧ (4 ≤ f.toRat ∧ f.toRat < 7 → paSeverityOf s = "Medium")
        ∧ (f.toRat < 4 → paSeverityOf s = "Low")) := by
  constructor
  · intro s h
    simp [paSeverityOf, h]
  · intro s f hp hne
    simp only [paSeverityOf, if_neg hne, hp]
    have h9 := PyFloat.geNat_iff f 9
    have h7 := PyFloat.geNat_iff f 7
    have h4 := PyFloat.geNat_iff f 4
    refine ⟨?_, ?_, ?_, ?_⟩
    · intro hge
      rw [if_pos (h9.mpr (by exact_mod_cast hge))]
    · rintro ⟨hge, hlt⟩
      have hn9 : ¬(f.geNat 9 = true) := fun hcon =>
        absurd (h9.mp hcon) (not_le.mpr (by exact_mod_cast hlt))
      rw [if_neg hn9, if_pos (h7.mpr (by exact_mod_cast hge))]
    · rintro ⟨hge, hlt⟩
      have hlt9 : f.toRat < 9 := hlt.trans (by norm_num)
      have hn9 : ¬(f.geNat 9 = true) := fun hcon =>
        absurd (h9.mp hcon) (not_le.mpr (by exact_mod_cast hlt9))
      have hn7 : ¬(f.geNat 7 = true) := fun hcon =>
        absurd (h7.mp hcon) (not_le.mpr (by exact_mod_cast hlt))
      rw [if_neg hn9, if_neg hn7, if_pos (h4.mpr (by exact_mod_cast hge))]
    · intro hlt
      have hlt9 : f.toRat < 9 := hlt.trans (by norm_num)
      have hlt7 : f.toRat < 7 := hlt.trans (by norm_num)
      have hn9 : ¬(f.geNat 9 = true) := fun hcon =>
        absurd (h9.mp hcon) (not_le.mpr (by exact_mod_cast hlt9))
      have hn7 : ¬(f.geNat 7 = true) := fun hcon =>
        absurd (h7.mp hcon) (not_le.mpr (by exact_mod_cast hlt7))
      have hn4 : ¬(f.geNat 4 = true) := fun hcon =>
        absurd (h4.mp hcon) (not_le.mpr (by exact_mod_cast hlt))
      rw [if_neg hn9, if_neg hn7, if_neg hn4]

/-- C2 witness: the theorem applied at "I" and at "9.8". -/
theorem C2_witness_concrete :
    paSeverityOf "I" = "Informational" ∧ paSeverityOf "9.8" = "Critical" :=
  ⟨C2_palo_severity_thresholds.1 "I" (by decide),
   (C2_palo_severity_thresholds.2 "9.8" ⟨98, 1⟩ (by decide) (by decide)).1
     (by norm_num [PyFloat.toRat])⟩

/-- C3: every Palo Alto and NVIDIA extractor run that hits a wait timeout or
a structural mismatch returns the empty table; both scrapers are total
functions of their page outcome, so nothing propagates out of them. -/
theorem C3_failures_yield_empty :
    (∀ page : PAIn, (∀ rows, page ≠ PAIn.ok rows) → scrape_palo_alto page = [])
    ∧ (∀ page : NVIn, (∀ rows, page ≠ NVIn.ok rows) → scrape_nvidia page = []) := by
  constructor
  · intro page h
    cases page
    case ok rows => exact absurd rfl (h rows)
    all_goals rfl
  · intro page h
    cases page
    case ok rows => exact absurd rfl (h rows)
    all_goals rfl

/-- C3 witness: the theorem applied to the timeout outcomes. -/
theorem C3_witness_concrete :
    scrape_palo_alto PAIn.waitTimeout = [] ∧ scrape_nvidia NVIn.timeout = [] :=
  ⟨C3_failures_yield_empty.1 PAIn.waitTimeout (fun _ h => by cases h),
   C3_failures_yield_empty.2 NVIn.timeout (fun _ h => by cases h)⟩

/-- C4 (counterexample): with no API key configured the lookup returns the
"N/A" triple — the severity value is the string "N/A", not "Unknown", and
the score is "N/A", not "unknown", contradicting the claim's stated
values. -/
theorem C4_counterexample_na_not_unknown :
    fetch_nvd_data "" NvdResp.netError = naTriple
    ∧ naTriple.severityLevel ≠ "Unknown" ∧ naTriple.cvssScore ≠ "unknown" :=
  ⟨rfl, by decide, by decide⟩

/-- C4 (amended): the lookup fails soft — with no key configured, or on any
network error, malformed response, or absent record, it returns the triple
whose three components are all the string "N/A"; it is a total function, so
it never raises. -/
theorem C4_amended_fails_soft :
    (∀ resp, fetch_nvd_data "" resp = naTriple)
    ∧ (∀ key, fetch_nvd_data key NvdResp.netError = naTriple
        ∧ fetch_nvd_data key NvdResp.badJson = naTriple
        ∧ fetch_nvd_data key NvdResp.noVulns = naTriple) := by
  constructor
  · intro resp
    simp [fetch_nvd_data]
  · intro key
    by_cases h : key = "" <;> simp [fetch_nvd_data, h]

/-- C5 (counterexample): which duplicate survives `drop_duplicates
(keep="first")` is decided by the tie order of the preceding
`sort_values(by="Unique ID")`, and pandas' default sort is unstable, so the
tie order is NOT the harvested order.  Concretely: for the harvested list
[paDupFirstRec, paDupSecondRec] (two distinct rows sharing one Unique ID),
the id-sorted list [paDupSecondRec, paDupFirstRec] is an admissible
`sort_values` output — a permutation that is ordered by the (equal) keys —
and under it the dedup stage keeps paDupSecondRec, the SECOND harvested
occurrence, not the first (which is the `take 1` of the harvested class). -/
theorem C5_counterexample_tie_order :
    admissibleSort paUidKey [paDupFirstRec, paDupSecondRec] [paDupSecondRec, paDupFirstRec]
    ∧ paDedupFrom [paDupSecondRec, paDupFirstRec] = [paDupSecondRec]
    ∧ paDupSecondRec.uniqueId = paDupFirstRec.uniqueId
    ∧ paDupSecondRec ≠ paDupFirstRec
    ∧ ([paDupFirstRec, paDupSecondRec].filter
        (fun r => r.uniqueId == "CVE-2025-0001")).take 1 = [paDupFirstRec] := by
  refine ⟨⟨List.Perm.swap _ _ _, ?_⟩, by decide, by decide, by decide, by decide⟩
  refine List.pairwise_cons.mpr ⟨?_, List.pairwise_singleton _ _⟩
  intro b hb
  rcases List.mem_singleton.mp hb with rfl
  have hk : paUidKey paDupFirstRec = paUidKey paDupSecondRec := by decide
  rw [hk]
  exact lt_irrefl _

/-- C5 (amended): for EVERY admissible tie order of the Unique-ID sort, the
dedup stage collapses the rows sharing a Unique ID to exactly one row (the
output has as many rows with a given id as `take 1` of the harvested class),
and every surviving row is one of the harvested rows; the stable sort used
by the executable `scrape_palo_alto` is one admissible tie order; and every
row carries the constant vendor "Palo Alto Networks", so the
(Vendor, Identifier) key degenerates to the Unique ID.  Which occurrence of
a duplicated id survives is NOT determined — see the counterexample. -/
theorem C5_amended_dedup :
    (∀ (data sorted : List PARec) (k : String),
        admissibleSort paUidKey data sorted →
        ((paDedupFrom sorted).filter (fun r => r.uniqueId == k)).length
            = ((data.filter (fun r => r.uniqueId == k)).take 1).length
          ∧ (∀ r ∈ paDedupFrom sorted, r ∈ data))
    ∧ (∀ data : List PARec, admissibleSort paUidKey data (sSort (keyLe paUidKey) data))
    ∧ (∀ raws : List PARaw,
        (scrape_palo_alto (PAIn.ok raws)).all
          (fun r => r.oemName == "Palo Alto Networks") = true) := by
  refine ⟨?_, ?_, ?_⟩
  · intro data sorted k hadm
    obtain ⟨hperm, -⟩ := hadm
    have h2 := filter_dropDupFirst paUidKey k sorted []
    rw [show (([] : List String).contains k) = false from rfl,
      if_neg Bool.false_ne_true] at h2
    constructor
    · have h1 : ((paDedupFrom sorted).filter (fun r => paUidKey r == k)).length
          = ((dropDupFirst paUidKey sorted []).filter (fun r => paUidKey r == k)).length :=
        ((sSort_perm paDateLe _).filter _).length_eq
      have h3 : ((sorted.filter (fun r => paUidKey r == k)).take 1).length
          = ((data.filter (fun r => paUidKey r == k)).take 1).length := by
        rw [List.length_take, List.length_take, (hperm.filter _).length_eq]
      exact h1.trans ((congrArg List.length h2).trans h3)
    · intro r hr
      have hr' : r ∈ sSort paDateLe (dropDupFirst paUidKey sorted []) := hr
      exact hperm.mem_iff.mp (mem_dropDupFirst (mem_of_mem_sSort hr'))
  · intro data
    refine ⟨sSort_perm _ _, ?_⟩
    have hp := pairwise_sSort (keyLe paUidKey) (keyLe_total paUidKey) (keyLe_trans paUidKey) data
    exact hp.imp (fun hab => by simpa [keyLe] using hab)
  · intro raws
    simp only [scrape_palo_alto]
    split
    · rfl
    · rw [List.all_eq_true]
      intro r hr
      have hr' : r ∈ paDedupSort (raws.filterMap paRowOf) := hr
      simp only [paDedupSort, paDedupFrom] at hr'
      have h2 := mem_dropDupFirst (mem_of_mem_sSort hr')
      have h3 := mem_of_mem_sSort h2
      simpa using filterMap_paRowOf_oem h3

/-- C5 witness: the amended theorem applied at a concrete two-row class with
the identity (also admissible) tie order. -/
theorem C5_witness_concrete :
    ((paDedupFrom [paDupFirstRec, paDupSecondRec]).filter
        (fun r => r.uniqueId == "CVE-2025-0001")).length
      = (([paDupFirstRec, paDupSecondRec].filter
          (fun r => r.uniqueId == "CVE-2025-0001")).take 1).length :=
  (C5_amended_dedup.1 [paDupFirstRec, paDupSecondRec] [paDupFirstRec, paDupSecondRec]
    "CVE-2025-0001"
    ⟨List.Perm.refl _, by
      refine List.pairwise_cons.mpr ⟨?_, List.pairwise_singleton _ _⟩
      intro b hb
      rcases List.mem_singleton.mp hb with rfl
      have hk : paUidKey paDupSecondRec = paUidKey paDupFirstRec := by decide
      rw [hk]
      exact lt_irrefl _⟩).1

/-- C6 (counterexample): the NVIDIA query bot never parses its date column —
`sort_values` runs on the raw strings — so over the claim's own table with
dates [2025-05-08, 2025-05-07, 2025-05-07, unknown] the unknown-date row
sorts FIRST (lexicographically largest), not last, and the 2025-05-08 row is
not first. -/
theorem C6_counterexample_nvidia_string_sort :
    ((query_nvidia_bot "latest advisories" nvExampleDF).2.rows.map
        (fun r => cellStr (getCell r "publish_date")))
      = ["unknown", "2025-05-08", "2025-05-07", "2025-05-07"] := by decide

/-- C6 (amended): N defaults to 5, is 10 when the question contains "10",
else 5; a latest/recent query returns the first `min N |table|` rows of the
stable descending sort of the table — the Cisco bot sorts parsed dates, so
unparseable dates sort last (pairwise order statement, and the claim's
concrete four-date example holds for it), while the NVIDIA bot sorts the raw
`publish_date` strings lexicographically. -/
theorem C6_amended_latest_query :
    (∀ q, strContains q "10" = true → latestN q = 10)
    ∧ (∀ q, strContains q "10" = false → latestN q = 5)
    ∧ (∀ (q : String) (df : DF), df.missingFrom ciscoRequiredColumns = [] →
        (strContains (clean_text q) "latest" || strContains (clean_text q) "recent") = true →
        (query_cisco_bot q df).2
          = ⟨(DF.convertCol df "last_updated").columns,
             (sortRowsDateDesc "last_updated" (DF.convertCol df "last_updated").rows).take
               (latestN (clean_text q))⟩
          ∧ (query_cisco_bot q df).2.rows.length
            = min (latestN (clean_text q)) df.rows.length)
    ∧ (∀ rows : List QRow,
        (sortRowsDateDesc "last_updated" rows).Pairwise
          (fun r s => dtDescLe (cellDate (getCell r "last_updated"))
            (cellDate (getCell s "last_updated")) = true))
    ∧ (∀ (q : String) (df : DF), df.missingFrom nvidiaRequiredColumns = [] →
        (strContains (clean_text q) "latest" || strContains (clean_text q) "recent") = true →
        (query_nvidia_bot q df).2
          = ⟨df.columns, (sortRowsStrDesc "publish_date" df.rows).take (latestN (clean_text q))⟩)
    ∧ (((query_cisco_bot "latest advisories" ciscoExampleDF).2.rows.map
          (fun r => cellDate (getCell r "last_updated")))
        = [some 20250508, some 20250507, some 20250507, none]) := by
  refine ⟨?_, ?_, ?_, ?_, ?_, ?_⟩
  · intro q h
    simp [latestN, h]
  · intro q h
    simp [latestN, h]
  · intro q df hm hl
    have hbot : (query_cisco_bot q df).2
        = ⟨(DF.convertCol df "last_updated").columns,
           (sortRowsDateDesc "last_updated" (DF.convertCol df "last_updated").rows).take
             (latestN (clean_text q))⟩ := by
      simp [query_cisco_bot, ciscoAnswer, hm, hl]
    refine ⟨hbot, ?_⟩
    rw [hbot]
    simp [List.length_take, sortRowsDateDesc, length_sSort, DF.convertCol]
  · intro rows
    exact pairwise_sSort
      (fun r s => dtDescLe (cellDate (getCell r "last_updated"))
        (cellDate (getCell s "last_updated")))
      (fun a b => dtDescLe_total _ _)
      (fun a b c h1 h2 => dtDescLe_trans _ _ _ h1 h2) rows
  · intro q df hm hl
    simp [query_nvidia_bot, nvidiaAnswer, hm, hl]
  · decide

/-- C6 witness: the amended theorem applied at concrete questions/tables. -/
theorem C6_witness_concrete :
    latestN "latest 10 advisories" = 10
    ∧ (query_cisco_bot "latest advisories" ciscoExampleDF).2.rows.length
        = min (latestN (clean_text "latest advisories")) ciscoExampleDF.rows.length
    ∧ (query_nvidia_bot "latest advisories" nvExampleDF).2
        = ⟨nvExampleDF.columns,
           (sortRowsStrDesc "publish_date" nvExampleDF.rows).take
             (latestN (clean_text "latest advisories"))⟩ :=
  ⟨C6_amended_latest_query.1 "latest 10 advisories" (by decide),
   (C6_amended_latest_query.2.2.1 "latest advisories" ciscoExampleDF (by decide) (by decide)).2,
   C6_amended_latest_query.2.2.2.2.1 "latest advisories" nvExampleDF (by decide) (by decide)⟩

/-- C7 (counterexample): a Cisco scan whose harvested rows carry the same
CVE identifier twice invokes the enrichment lookup twice for that
identifier — there is no memoization. -/
theorem C7_counterexample_duplicate_lookup :
    (ciscoNvdCalls [ciscoDupRow, ciscoDupRow]).count "CVE-2025-0001" = 2 := by decide

/-- C7 (amended): the enrichment lookup is invoked exactly once per harvested
row whose cve text yields a CVE identifier — so an identifier appearing in k
rows is looked up k times (per scan), not at most once. -/
theorem C7_amended_once_per_row :
    (∀ (rows : List CiscoRaw) (id : String), id ≠ "N/A" →
      (ciscoNvdCalls rows).count id
        = (rows.filter (fun r =>
            primaryCveWs ((r.cveText.map pyStrip).getD "N/A") == id)).length)
    ∧ (∀ (rows : List IntelRaw) (id : String), id ≠ "N/A" →
      (intelNvdCalls rows).count id
        = ((rows.take 100).filter (fun r =>
            !(decide (r.numTds < 4)) && (primaryCveWs (pyStrip r.cveText) == id))).length) := by
  constructor
  · intro rows id hid
    exact count_callsOf (fun r => primaryCveWs ((r.cveText.map pyStrip).getD "N/A")) id hid rows
  · intro rows id hid
    exact count_intelCalls id hid (rows.take 100)

/-- C7 witness: the amended theorem applied at a one-row scan. -/
theorem C7_witness_concrete :
    (ciscoNvdCalls [ciscoDupRow]).count "CVE-2025-0001"
      = ([ciscoDupRow].filter (fun r =>
          primaryCveWs ((r.cveText.map pyStrip).getD "N/A") == "CVE-2025-0001")).length :=
  C7_amended_once_per_row.1 [ciscoDupRow] "CVE-2025-0001" (by decide)

/-- C8 (counterexample): the NVIDIA scraper has no row cap — a page with 101
well-formed rows yields 101 output rows, violating the 100-row bound. -/
theorem C8_counterexample_no_cap :
    (scrape_nvidia (NVIn.ok (List.replicate 101 nvGoodRaw))).length = 101 := by
  have h : nvRowOf nvGoodRaw = Except.ok (some nvGoodRec) := by rfl
  have h2 := nvHarvest_replicate h 101
  simp only [scrape_nvidia]
  rw [h2]
  simp

/-- C8 (amended): only the Intel and Dell scrapers cap harvested rows at 100
(`rows[:100]`); their outputs, and the uncapped Cisco output, preserve
DOM/document order (the output is the order-preserving `filterMap`/`map`
image of the harvested prefix); NVIDIA, Cisco and Adobe have no cap, and the
Palo Alto output is re-sorted rather than DOM-ordered. -/
theorem C8_amended_caps_and_order :
    (∀ page, (scrape_intel page).length ≤ 100)
    ∧ (∀ (nvd : String → NvdTriple) page, (scrape_dell nvd page).length ≤ 100)
    ∧ (∀ rows, scrape_intel (IntelIn.ok rows) = (rows.take 100).filterMap intelRowOf)
    ∧ (∀ (nvd : String → NvdTriple) rows,
        scrape_dell nvd (DellIn.ok rows) = (rows.take 100).filterMap (dellRowOf nvd))
    ∧ (∀ rows, scrape_cisco (CiscoIn.ok rows) = rows.map ciscoRowOf) := by
  refine ⟨?_, ?_, ?_, ?_, ?_⟩
  · intro page
    cases page with
    | timeout => simp [scrape_intel]
    | noRows => simp [scrape_intel]
    | ok rows =>
      simp only [scrape_intel, intelHarvest_eq_filterMap]
      exact le_trans (List.length_filterMap_le _ _) (List.length_take_le _ _)
  · intro nvd page
    cases page with
    | noRows => simp [scrape_dell]
    | error => simp [scrape_dell]
    | ok rows =>
      simp only [scrape_dell, dellHarvest_eq_filterMap]
      exact le_trans (List.length_filterMap_le _ _) (List.length_take_le _ _)
  · intro rows
    simp [scrape_intel, intelHarvest_eq_filterMap]
  · intro nvd rows
    simp [scrape_dell, dellHarvest_eq_filterMap]
  · intro rows
    rfl

/-- C9 (counterexample): the Cisco query bot mutates the caller's table —
after any question (here one that matches no rule) the caller's
`last_updated` column has been overwritten in place by parsed datetimes. -/
theorem C9_counterexample_caller_mutated :
    (query_cisco_bot "hello" ciscoExampleDF).1 ≠ ciscoExampleDF := by decide

/-- C9 (amended): answering a query leaves the caller's table unchanged for
the NVIDIA bot, while the Cisco and Palo Alto bots overwrite exactly their
date column (`last_updated` / `published_date`) in place with parsed
datetimes whenever the required columns are present — all other fields are
untouched, as the column-wise description shows. -/
theorem C9_amended_mutation_scope :
    (∀ q df, (query_nvidia_bot q df).1 = df)
    ∧ (∀ q df, (query_cisco_bot q df).1
        = (if df.missingFrom ciscoRequiredColumns = []
           then DF.convertCol df "last_updated" else df))
    ∧ (∀ q df, (query_palo_alto_bot q df).1
        = (if df.missingFrom paRequiredColumns = []
           then DF.convertCol df "published_date" else df)) := by
  refine ⟨?_, ?_, ?_⟩
  · intro q df
    by_cases h : df.missingFrom nvidiaRequiredColumns = [] <;> simp [query_nvidia_bot, h]
  · intro q df
    by_cases h : df.missingFrom ciscoRequiredColumns = [] <;> simp [query_cisco_bot, h]
  · intro q df
    by_cases h : df.missingFrom paRequiredColumns = [] <;> simp [query_palo_alto_bot, h]

/-- C10: for every question and every table missing required columns, each
query bot returns the single-row "Missing required columns" table naming the
absent columns; each bot is a total function, so it never raises. -/
theorem C10_missing_columns_message :
    (∀ q df, df.missingFrom nvidiaRequiredColumns ≠ [] →
      (query_nvidia_bot q df).2
        = responseDF ("❌ Missing required columns: "
            ++ pyJoin ", " (df.missingFrom nvidiaRequiredColumns)
            ++ ". Please ensure the data includes these columns."))
    ∧ (∀ q df, df.missingFrom ciscoRequiredColumns ≠ [] →
      (query_cisco_bot q df).2
        = responseDF ("❌ Missing required columns: "
            ++ pyJoin ", " (df.missingFrom ciscoRequiredColumns) ++ "."))
    ∧ (∀ q df, df.missingFrom paRequiredColumns ≠ [] →
      (query_palo_alto_bot q df).2
        = responseDF ("❌ Missing required columns: "
            ++ pyJoin ", " (df.missingFrom paRequiredColumns) ++ ".")) := by
  refine ⟨?_, ?_, ?_⟩
  · intro q df h
    simp [query_nvidia_bot, h]
  · intro q df h
    simp [query_cisco_bot, h]
  · intro q df h
    simp [query_palo_alto_bot, h]

/-- C10 witness: the theorem applied at an empty (column-less) table. -/
theorem C10_witness_concrete :
    (query_nvidia_bot "latest" emptyDF).2
      = responseDF ("❌ Missing required columns: "
          ++ pyJoin ", " (emptyDF.missingFrom nvidiaRequiredColumns)
          ++ ". Please ensure the data includes these columns.")
    ∧ (query_cisco_bot "latest" emptyDF).2
      = responseDF ("❌ Missing required columns: "
          ++ pyJoin ", " (emptyDF.missingFrom ciscoRequiredColumns) ++ ".")
    ∧ (query_palo_alto_bot "latest" emptyDF).2
      = responseDF ("❌ Missing required columns: "
          ++ pyJoin ", " (emptyDF.missingFrom paRequiredColumns) ++ ".") :=
  ⟨C10_missing_columns_message.1 "latest" emptyDF (by decide),
   C10_missing_columns_message.2.1 "latest" emptyDF (by decide),
   C10_missing_columns_message.2.2 "latest" emptyDF (by decide)⟩
